import Mathlib

/-!
Verification development for the nanobanana MCP image-generation server.

The definitions below are a shallow embedding of the TypeScript sources:
`src/mcp-server/src/imageGenerator.ts` (the `ImageGenerator` class) and the
compiled `FileHandler` module (file search, filename generation).  Pure
functions are translated directly; the stateful generation flows are modelled
as deterministic functions over an explicit state record, with the provider
endpoint abstracted as an oracle mapping the index of each HTTP call to its
outcome, and the filesystem abstracted as a membership predicate / name list.
JavaScript truthiness of optional strings and numbers is modelled explicitly
(`none` and empty string / zero are falsy).
-/

/-! ### String helpers (JS substring / case-insensitive search) -/

/-- Membership of `needle` as a contiguous sublist of the second argument.
Models the JS `String.prototype.includes` used on classified error messages. -/
def listContainsSub (needle : List Char) : List Char → Bool
  | [] => needle.isEmpty
  | c :: rest => needle.isPrefixOf (c :: rest) || listContainsSub needle rest

/-- `strContains hay needle` models `hay.includes(needle)` in JS. -/
def strContains (hay needle : String) : Bool :=
  listContainsSub needle.data hay.data

/-- `s.toLowerCase()`, written over the underlying character list. -/
def strToLower (s : String) : String := String.mk (s.data.map Char.toLower)

/-- JS truthiness of an optional numeric field: `undefined` and `0` are falsy. -/
def jsTruthyCount : Option Nat → Bool
  | none => false
  | some n => n != 0

/-- JS truthiness of an optional string field: `undefined` and `""` are falsy. -/
def jsStrTruthy : Option String → Bool
  | none => false
  | some s => s != ""

/-- JS `a || b` on optional strings (empty string is falsy). -/
def jsStringOr (a b : Option String) : Option String :=
  match a with
  | some s => if s == "" then b else some s
  | none => b

/-- JS `o || d` for an optional string with a default. -/
def jsStrDefault (o : Option String) (d : String) : String :=
  match o with
  | some s => if s == "" then d else s
  | none => d

/-! ### Base64 image-data validation

Embeds `ImageGenerator.isValidBase64ImageData` (imageGenerator.ts:316-336).
-/

/-- Characters matched by the base64 alphabet class `[A-Za-z0-9+/]`. -/
def isBase64AlphabetChar (c : Char) : Bool :=
  ('A' ≤ c && c ≤ 'Z') || ('a' ≤ c && c ≤ 'z') ||
    ('0' ≤ c && c ≤ '9') || c == '+' || c == '/'

/-- Test of the anchored regex `^[A-Za-z0-9+/]*={0,2}$` from the validator.
Since `=` is not in the alphabet class, the maximal alphabet run is exactly
what the starred class consumes, and the regex matches iff the remainder is
at most two `=` characters. -/
def base64RegexTest (s : String) : Bool :=
  let rest := s.data.dropWhile isBase64AlphabetChar
  decide (rest.length ≤ 2) && rest.all (fun c => c == '=')

/-- `isValidBase64ImageData` from imageGenerator.ts:316-336: reject empty or
short (under 100 chars) data, reject non-base64 characters, reject
syntactically valid data under 1000 chars (noise, not an image). -/
def isValidBase64ImageData (data : String) : Bool :=
  if data.length < 100 then false
  else if ! base64RegexTest data then false
  else if data.length < 1000 then false
  else true

/-! #### Helper lemmas for the validator -/

lemma dropWhile_append_of_all {p : Char → Bool} :
    ∀ (l₁ l₂ : List Char), l₁.all p = true →
      (l₁ ++ l₂).dropWhile p = l₂.dropWhile p := by
  intro l₁ l₂ h
  induction l₁ with
  | nil => rfl
  | cons c t ih =>
    simp only [List.all_cons, Bool.and_eq_true] at h
    simp [List.dropWhile_cons, h.1, ih h.2]

lemma dropWhile_pad_eq_self (pad : List Char)
    (h : pad.all (fun c => c == '=') = true) :
    pad.dropWhile isBase64AlphabetChar = pad := by
  cases pad with
  | nil => rfl
  | cons c t =>
    simp only [List.all_cons, Bool.and_eq_true, beq_iff_eq] at h
    have hc : isBase64AlphabetChar c = false := by
      rw [h.1]; decide
    simp [List.dropWhile_cons, hc]

lemma mem_dropWhile_of_not {p : Char → Bool} :
    ∀ (l : List Char) (c : Char), c ∈ l → p c = false → c ∈ l.dropWhile p := by
  intro l c hmem hpc
  induction l with
  | nil => cases hmem
  | cons a t ih =>
    rcases List.mem_cons.mp hmem with h | h
    · subst h
      simp [List.dropWhile_cons, hpc]
    · by_cases hpa : p a = true
      · simpa [List.dropWhile_cons, hpa] using ih h
      · simp only [Bool.not_eq_true] at hpa
        simp [List.dropWhile_cons, hpa]
        right
        exact h

lemma string_length_eq_data (s : String) : s.length = s.data.length := rfl

/-- Claim C4: the base64 image-data validator accepts every string of length
at least 1000 made of base64 alphabet characters followed by at most two `=`
padding characters; rejects every string shorter than 1000 characters; and
rejects every string containing a character that is neither in the base64
alphabet nor `=`, regardless of length. -/
theorem isValidBase64ImageData_spec :
    (∀ (s : String) (body pad : List Char), s.data = body ++ pad →
      body.all isBase64AlphabetChar = true → pad.all (fun c => c == '=') = true →
      pad.length ≤ 2 → 1000 ≤ s.length → isValidBase64ImageData s = true)
  ∧ (∀ s : String, s.length < 1000 → isValidBase64ImageData s = false)
  ∧ (∀ (s : String) (c : Char), c ∈ s.data → isBase64AlphabetChar c = false →
      c ≠ '=' → isValidBase64ImageData s = false) := by
  refine ⟨?_, ?_, ?_⟩
  · intro s body pad hdata hbody hpad hpadlen hlen
    have hregex : base64RegexTest s = true := by
      unfold base64RegexTest
      rw [hdata, dropWhile_append_of_all body pad hbody, dropWhile_pad_eq_self pad hpad]
      simp [hpadlen, hpad]
    unfold isValidBase64ImageData
    rw [hregex]
    have h1 : ¬ s.length < 100 := by omega
    have h2 : ¬ s.length < 1000 := by omega
    simp [h1, h2]
  · intro s hlen
    unfold isValidBase64ImageData
    split_ifs with h1 h2 <;> rfl
  · intro s c hmem hchar hne
    have hrest : c ∈ s.data.dropWhile isBase64AlphabetChar :=
      mem_dropWhile_of_not s.data c hmem hchar
    have hall : (s.data.dropWhile isBase64AlphabetChar).all (fun c => c == '=') = false := by
      rw [Bool.eq_false_iff]
      intro hall
      rw [List.all_eq_true] at hall
      have := hall c hrest
      simp only [beq_iff_eq] at this
      exact hne this
    have hregex : base64RegexTest s = false := by
      unfold base64RegexTest
      simp [hall]
    unfold isValidBase64ImageData
    rw [hregex]
    simp

/-- A long alphabet-only string used in several concrete evaluations. -/
def bigBase64 : String := String.mk (List.replicate 1000 'A')

/-- Witness for C4 at concrete inputs: a 1000-char alphabet string is
accepted, a 500-char alphabet string is rejected, and a string containing
`!` is rejected. -/
theorem isValidBase64ImageData_spec_witness :
    isValidBase64ImageData bigBase64 = true
  ∧ isValidBase64ImageData (String.mk (List.replicate 500 'A')) = false
  ∧ isValidBase64ImageData (String.mk ('!' :: List.replicate 1500 'A')) = false := by
  have hrep : ∀ (n : Nat), (List.replicate n 'A').all isBase64AlphabetChar = true := by
    intro n
    induction n with
    | zero => rfl
    | succ k ih =>
      rw [List.replicate_succ, List.all_cons, ih]
      decide
  have hbig : bigBase64.length = 1000 := by
    rw [string_length_eq_data, show bigBase64.data = List.replicate 1000 'A' from rfl,
      List.length_replicate]
  have h500 : (String.mk (List.replicate 500 'A')).length = 500 := by
    rw [string_length_eq_data,
      show (String.mk (List.replicate 500 'A')).data = List.replicate 500 'A' from rfl,
      List.length_replicate]
  refine ⟨?_, ?_, ?_⟩
  · exact isValidBase64ImageData_spec.1 bigBase64 (List.replicate 1000 'A') []
      (by rw [List.append_nil]; rfl) (hrep 1000) rfl (by decide) (by omega)
  · exact isValidBase64ImageData_spec.2.1 _ (by omega)
  · exact isValidBase64ImageData_spec.2.2 _ '!' (List.mem_cons_self _ _)
      (by decide) (by decide)

/-! ### FileHandler: filename generation and input-file search

Embeds the compiled `FileHandler` module (fileHandler.js).  The filesystem is
abstracted: `existing` is the list of file names already present in the output
directory, and `fsExists` is the existence predicate used by the search.  The
`path.join` of Node is modelled for the posix flavour used here.
-/

/-- Whitespace characters matched by the JS regex class backslash-s
(the common ASCII ones; the sanitizer below only ever sees ASCII survivors). -/
def isJsWhitespace (c : Char) : Bool :=
  c == ' ' || c == '\t' || c == '\n' || c == '\r' || c == '\x0b' || c == '\x0c'

/-- Characters kept by `replace(/[^a-z0-9\s]/g, "")` after lowercasing. -/
def keepPromptChar (c : Char) : Bool :=
  ('a' ≤ c && c ≤ 'z') || ('0' ≤ c && c ≤ '9') || isJsWhitespace c

/-- `replace(/\s+/g, "_")`: each maximal whitespace run becomes one `_`.
The boolean tracks whether the previous character belonged to a run. -/
def collapseWsAux : Bool → List Char → List Char
  | _, [] => []
  | prevWs, c :: rest =>
    if isJsWhitespace c then
      if prevWs then collapseWsAux true rest
      else '_' :: collapseWsAux true rest
    else c :: collapseWsAux false rest

/-- The base-name derivation of `FileHandler.generateFilename`
(fileHandler.js:41-47): lowercase, strip characters outside `[a-z0-9\s]`,
collapse whitespace runs to `_`, truncate to 32 characters. -/
def sanitizePrompt (prompt : String) : String :=
  String.mk ((collapseWsAux false ((prompt.data.map Char.toLower).filter keepPromptChar)).take 32)

/-- Extension selection of `generateFilename`: `jpeg` maps to `jpg`,
everything else to `png`. -/
def jsExtension (format : String) : String :=
  if format == "jpeg" then "jpg" else "png"

/-- The collision loop of `generateFilename` (fileHandler.js:55-59), with
explicit fuel standing for the (in the source, unbounded) `while` loop.  The
callers pass `existing.length + 1` fuel, which is exhausted only if every
probed candidate collides. -/
def collisionLoop (existing : List String) (baseName extension : String) :
    Nat → String → Nat → String
  | 0, fileName, _ => fileName
  | fuel + 1, fileName, counter =>
    if fileName ∈ existing then
      collisionLoop existing baseName extension fuel
        (baseName ++ "_" ++ toString counter ++ "." ++ extension) (counter + 1)
    else fileName

/-- `FileHandler.generateFilename(prompt, format, index)` against an abstract
list of file names already present in the output directory. -/
def generateFilename (existing : List String) (prompt format : String) (index : Nat) : String :=
  let baseName0 := sanitizePrompt prompt
  let baseName := if baseName0 == "" then "generated_image" else baseName0
  let extension := jsExtension format
  let fileName := baseName ++ "." ++ extension
  let counter := if index > 0 then index else 1
  collisionLoop existing baseName extension (existing.length + 1) fileName counter

/-- Node `path.join` for the posix paths used by the search. -/
def pathJoin (a b : String) : String := a ++ "/" ++ b

/-- Result shape of `FileHandler.findInputFile`. -/
structure FindFileResult where
  found : Bool
  filePath : Option String := none
  searchedPaths : List String := []
  deriving Repr, DecidableEq

/-- Node `path.isAbsolute` for posix paths: the path starts with `/`. -/
def isAbsolutePath (p : String) : Bool :=
  match p.data with
  | '/' :: _ => true
  | _ => false

/-- The ordered directory scan of `findInputFile` (fileHandler.js:26-35). -/
def findFirstSearchHit (fsExists : String → Bool) (filename : String) :
    List String → Option String
  | [] => none
  | searchPath :: rest =>
    if fsExists (pathJoin searchPath filename) then some (pathJoin searchPath filename)
    else findFirstSearchHit fsExists filename rest

/-- `FileHandler.findInputFile(filename)` (fileHandler.js:17-40): an absolute
existing path short-circuits the search; otherwise the fixed directory list is
scanned in order, and the full list is reported as searched either way. -/
def findInputFile (fsExists : String → Bool) (searchPaths : List String)
    (filename : String) : FindFileResult :=
  if isAbsolutePath filename && fsExists filename then
    { found := true, filePath := some filename, searchedPaths := [] }
  else
    match findFirstSearchHit fsExists filename searchPaths with
    | some fullPath => { found := true, filePath := some fullPath, searchedPaths := searchPaths }
    | none => { found := false, searchedPaths := searchPaths }

/-! #### Lemmas about the collision loop -/

lemma collisionLoop_not_mem (existing : List String) (b e fileName : String)
    (counter fuel : Nat) (h : fileName ∉ existing) :
    collisionLoop existing b e (fuel + 1) fileName counter = fileName := by
  simp only [collisionLoop]
  rw [if_neg h]

lemma collisionLoop_suffix_form (existing : List String) (b e : String) :
    ∀ (fuel k counter : Nat),
      ∃ k2 : Nat, collisionLoop existing b e fuel (b ++ "_" ++ toString k ++ "." ++ e) counter
          = b ++ "_" ++ toString k2 ++ "." ++ e := by
  intro fuel
  induction fuel with
  | zero => exact fun k counter => ⟨k, rfl⟩
  | succ n ih =>
    intro k counter
    simp only [collisionLoop]
    split_ifs with h
    · exact ih counter (counter + 1)
    · exact ⟨k, rfl⟩

lemma suffix_name_ne (b e s : String) :
    b ++ "_" ++ s ++ "." ++ e ≠ b ++ "." ++ e := by
  intro h
  have h' := congrArg String.length h
  simp only [String.length_append] at h'
  have h1 : ("_" : String).length = 1 := rfl
  have h2 : ("." : String).length = 1 := rfl
  rw [h1, h2] at h'
  omega

lemma generateFilename_collision (existing : List String) (prompt format : String)
    (hne : sanitizePrompt prompt ≠ "")
    (hmem : sanitizePrompt prompt ++ "." ++ jsExtension format ∈ existing) :
    ∃ k : Nat, generateFilename existing prompt format 0
      = sanitizePrompt prompt ++ "_" ++ toString k ++ "." ++ jsExtension format := by
  have hbeq : (sanitizePrompt prompt == "") = false := by simpa using hne
  unfold generateFilename
  simp only [hbeq, Bool.false_eq_true, if_false]
  rw [show (if 0 > 0 then (0 : Nat) else 1) = 1 from rfl]
  simp only [collisionLoop]
  rw [if_pos hmem]
  exact collisionLoop_suffix_form existing _ _ existing.length 1 2

/-- Claim C8: the filename generator lowercases, strips non-alphanumeric
characters, collapses whitespace runs to underscores and truncates to 32
characters (so the base name is at most 32 characters); a prompt whose
sanitized form is empty yields `generated_image` with the format extension;
and when the file name already exists in the output directory a numeric
suffix is appended, so a second call for the same prompt returns a
different name. -/
theorem generateFilename_spec :
    (∀ (existing : List String) (prompt format : String) (index : Nat),
      sanitizePrompt prompt = "" →
      ("generated_image" ++ "." ++ jsExtension format) ∉ existing →
      generateFilename existing prompt format index
        = "generated_image" ++ "." ++ jsExtension format)
  ∧ (∀ (existing : List String) (prompt format : String),
      sanitizePrompt prompt ≠ "" →
      (sanitizePrompt prompt ++ "." ++ jsExtension format) ∉ existing →
      generateFilename existing prompt format 0
          = sanitizePrompt prompt ++ "." ++ jsExtension format
        ∧ ∃ k : Nat, generateFilename (generateFilename existing prompt format 0 :: existing)
              prompt format 0
            = sanitizePrompt prompt ++ "_" ++ toString k ++ "." ++ jsExtension format
          ∧ generateFilename (generateFilename existing prompt format 0 :: existing)
              prompt format 0
            ≠ generateFilename existing prompt format 0)
  ∧ (∀ prompt : String, (sanitizePrompt prompt).length ≤ 32) := by
  refine ⟨?_, ?_, ?_⟩
  · intro existing prompt format index hempty hnot
    unfold generateFilename
    rw [hempty]
    simp only [beq_self_eq_true, if_true]
    exact collisionLoop_not_mem existing _ _ _ _ existing.length hnot
  · intro existing prompt format hne hnot
    have hbeq : (sanitizePrompt prompt == "") = false := by
      simpa using hne
    have hfirst : generateFilename existing prompt format 0
        = sanitizePrompt prompt ++ "." ++ jsExtension format := by
      unfold generateFilename
      simp only [hbeq, Bool.false_eq_true, if_false]
      exact collisionLoop_not_mem existing _ _ _ _ existing.length hnot
    refine ⟨hfirst, ?_⟩
    obtain ⟨k, hk⟩ := generateFilename_collision
      (generateFilename existing prompt format 0 :: existing) prompt format hne
      (by rw [← hfirst]; exact List.mem_cons_self _ _)
    refine ⟨k, hk, ?_⟩
    rw [hk, hfirst]
    exact suffix_name_ne _ _ _
  · intro prompt
    rw [string_length_eq_data]
    exact List.length_take_le 32 _

/-- Witness for C8: an all-punctuation prompt yields `generated_image.png`
in an empty directory, and calling the generator twice for the same prompt
(with the first result recorded as existing) yields two different names. -/
theorem generateFilename_spec_witness :
    generateFilename [] "?!." "png" 0 = "generated_image" ++ "." ++ jsExtension "png"
  ∧ generateFilename (generateFilename [] "Hello World" "png" 0 :: []) "Hello World" "png" 0
      ≠ generateFilename [] "Hello World" "png" 0 := by
  constructor
  · exact generateFilename_spec.1 [] "?!." "png" 0 (by decide) (by simp)
  · exact ((generateFilename_spec.2.1 [] "Hello World" "png" (by decide)
      (by simp)).2).choose_spec.2

/-- Claim C9: an absolute path to an existing file short-circuits the
search: `findInputFile` returns exactly that path with an empty
searchedPaths list; in every other case the full directory list is the
reported searched list. -/
theorem findInputFile_absolute_spec :
    (∀ (fsExists : String → Bool) (searchPaths : List String) (filename : String),
      isAbsolutePath filename = true → fsExists filename = true →
      findInputFile fsExists searchPaths filename
        = { found := true, filePath := some filename, searchedPaths := [] })
  ∧ (∀ (fsExists : String → Bool) (searchPaths : List String) (filename : String),
      ¬ (isAbsolutePath filename = true ∧ fsExists filename = true) →
      (findInputFile fsExists searchPaths filename).searchedPaths = searchPaths) := by
  constructor
  · intro fsExists searchPaths filename habs hex
    unfold findInputFile
    rw [if_pos (by rw [habs, hex]; rfl)]
  · intro fsExists searchPaths filename hno
    unfold findInputFile
    rw [if_neg (by
      intro hand
      rw [Bool.and_eq_true] at hand
      exact hno hand)]
    cases findFirstSearchHit fsExists filename searchPaths <;> rfl

/-- Witness for C9 at a concrete filesystem: the absolute path is returned
untouched with no searched directories, and a relative miss reports the
full search list. -/
theorem findInputFile_absolute_spec_witness :
    findInputFile (fun p => p == "/abs/cat.png") ["a", "b"] "/abs/cat.png"
      = { found := true, filePath := some "/abs/cat.png", searchedPaths := [] }
  ∧ (findInputFile (fun _ => false) ["a", "b"] "cat.png").searchedPaths = ["a", "b"] := by
  constructor
  · exact findInputFile_absolute_spec.1 _ _ _ (by decide) (by decide)
  · exact findInputFile_absolute_spec.2 _ _ _ (by decide)

/-! ### Provider response shapes and the response extractor

Embeds the interfaces of imageGenerator.ts:30-60 (restricted to the fields
the parser reads) and `parseImageFromResponse` (imageGenerator.ts:156-240).
-/

structure OpenRouterImageData where
  b64_json : Option String := none
  base64 : Option String := none
  url : Option String := none
  deriving Repr

structure OpenRouterOutputContent where
  text : Option String := none
  data : Option String := none
  image_base64 : Option String := none
  result : Option String := none
  deriving Repr

structure OpenRouterOutputItem where
  type : Option String := none
  content : Option (List OpenRouterOutputContent) := none
  result : Option String := none
  deriving Repr

structure OpenRouterImageResponse where
  data : Option (List OpenRouterImageData) := none
  output : Option (List OpenRouterOutputItem) := none
  deriving Repr

/-- `s.startsWith(pre)`, written over the underlying character lists.
Code-unit indices and character indices agree on the strings involved. -/
def strStartsWith (s pre : String) : Bool := pre.data.isPrefixOf s.data

/-- The `tryDecode` closure of `parseImageFromResponse`
(imageGenerator.ts:163-177): for a data URL with a comma, validate the
payload after the first comma; otherwise (including a data URL without any
comma) validate the whole string. -/
def tryDecode (value : Option String) : Option String :=
  match value with
  | none => none
  | some v =>
    if v == "" then none
    else if strStartsWith v "data:image" && v.data.findIdx (fun c => c == ',') < v.data.length then
      let base64 := String.mk (v.data.drop (v.data.findIdx (fun c => c == ',') + 1))
      if isValidBase64ImageData base64 then some base64 else none
    else if isValidBase64ImageData v then some v else none

/-- JS `a || b` chaining of candidate decode results (the decoder never
produces an empty string, so option fallback is faithful to truthiness). -/
def orCandidate (a b : Option String) : Option String :=
  match a with
  | some s => some s
  | none => b

/-- The four-field priority probe applied to one content entry
(imageGenerator.ts:189-193 and 203-207). -/
def parseContentPart (part : OpenRouterOutputContent) : Option String :=
  orCandidate (tryDecode part.image_base64)
    (orCandidate (tryDecode part.result)
      (orCandidate (tryDecode part.data) (tryDecode part.text)))

/-- First hit over a content array. -/
def scanContentList : List OpenRouterOutputContent → Option String
  | [] => none
  | part :: rest =>
    match parseContentPart part with
    | some s => some s
    | none => scanContentList rest

/-- Per-item search (imageGenerator.ts:180-213): an image-generation call
first offers its direct result then its content; every item additionally
has its content scanned unconditionally. -/
def scanOutputItem (item : OpenRouterOutputItem) : Option String :=
  let fromCall : Option String :=
    if item.type == some "image_generation_call" then
      match tryDecode item.result with
      | some direct => some direct
      | none =>
        match item.content with
        | some parts => scanContentList parts
        | none => none
    else none
  match fromCall with
  | some s => some s
  | none =>
    match item.content with
    | some parts => scanContentList parts
    | none => none

/-- First hit over the `output` array. -/
def scanOutputList : List OpenRouterOutputItem → Option String
  | [] => none
  | item :: rest =>
    match scanOutputItem item with
    | some s => some s
    | none => scanOutputList rest

/-- Legacy `data` array fallback (imageGenerator.ts:216-237): take the first
truthy of `b64_json`, `base64`, `url`; skip entries whose value starts with
`http`; decode the rest. -/
def scanLegacyData : List OpenRouterImageData → Option String
  | [] => none
  | part :: rest =>
    match jsStringOr part.b64_json (jsStringOr part.base64 part.url) with
    | none => scanLegacyData rest
    | some encoded =>
      if encoded == "" then scanLegacyData rest
      else if strStartsWith encoded "http" then scanLegacyData rest
      else
        match tryDecode (some encoded) with
        | some legacy => some legacy
        | none => scanLegacyData rest

/-- `parseImageFromResponse` (imageGenerator.ts:156-240): the `output` array
shape is searched first, then the legacy `data` array shape. -/
def parseImageFromResponse (response : OpenRouterImageResponse) : Option String :=
  match scanOutputList (response.output.getD []) with
  | some s => some s
  | none => scanLegacyData (response.data.getD [])

/-- A response whose only entry is a legacy `data[0].url` field carrying an
inline base64 payload (no `b64_json` or `base64` fields anywhere). -/
def urlOnlyResponse : OpenRouterImageResponse :=
  { data := some [{ url := some bigBase64 }] }

set_option maxRecDepth 10000 in
/-- Counterexample to claim C7 as stated: a `data[0].url` value that does
not start with `http` (here a plain 1000-character base64 payload) IS
decoded and extracted, so a response whose only image-bearing entry is the
legacy url field does not always extract to none. -/
theorem parseImage_url_counterexample :
    parseImageFromResponse urlOnlyResponse = some bigBase64 := by
  rfl

lemma scanLegacyData_none_of_http :
    ∀ (entries : List OpenRouterImageData),
      (∀ d ∈ entries,
        (d.b64_json = none ∨ d.b64_json = some "") ∧
        (d.base64 = none ∨ d.base64 = some "") ∧
        (∀ u, d.url = some u → strStartsWith u "http" = true)) →
      scanLegacyData entries = none := by
  intro entries h
  induction entries with
  | nil => rfl
  | cons d rest ih =>
    obtain ⟨h1, h2, h3⟩ := h d (List.mem_cons_self _ _)
    have hrest := ih (fun x hx => h x (List.mem_cons_of_mem _ hx))
    have henc : jsStringOr d.b64_json (jsStringOr d.base64 d.url) = d.url := by
      rcases h1 with h1 | h1 <;> rcases h2 with h2 | h2 <;> simp [jsStringOr, h1, h2]
    rw [scanLegacyData, henc]
    cases hurl : d.url with
    | none => exact hrest
    | some u =>
      by_cases hu : u = ""
      · subst hu
        simp [hrest]
      · have hs := h3 u hurl
        have hbe : (u == "") = false := by simpa using hu
        simp [hbe, hs, hrest]

/-- Claim C7 amended: for every provider response with no `output` array
whose legacy `data` entries carry no inline fields (`b64_json` and `base64`
absent or empty) and whose `url` values all start with `http`, the
extractor returns none: http(s) URL entries are never downloaded.  (As the
counterexample shows, a `url` value that does not start with `http` is
treated as an inline payload and decoded.) -/
theorem parseImage_url_spec :
    ∀ (response : OpenRouterImageResponse),
      response.output = none →
      (∀ d ∈ response.data.getD [],
        (d.b64_json = none ∨ d.b64_json = some "") ∧
        (d.base64 = none ∨ d.base64 = some "") ∧
        (∀ u, d.url = some u → strStartsWith u "http" = true)) →
      parseImageFromResponse response = none := by
  intro response hout hall
  unfold parseImageFromResponse
  rw [hout]
  exact scanLegacyData_none_of_http _ hall

/-- Witness for the amended C7: a response whose only entry is an https URL
extracts to none. -/
theorem parseImage_url_spec_witness :
    parseImageFromResponse { data := some [{ url := some "https://example.com/cat.png" }] }
      = none := by
  apply parseImage_url_spec
  · rfl
  · intro d hd
    simp only [Option.getD, List.mem_singleton] at hd
    subst hd
    exact ⟨Or.inl rfl, Or.inl rfl, fun u hu => by cases hu; decide⟩

/-! ### Error classifier

Embeds `handleApiError` (imageGenerator.ts:791-825).  A thrown value is
either an `OpenRouterApiError` carrying the optional HTTP status, or any
other error carrying only a message.
-/

inductive ThrownError where
  | api (message : String) (status : Option Nat)
  | other (message : String)
  deriving Repr

def handleApiError : ThrownError → String
  | .api message status =>
    if status == some 401 then
      "Authentication failed: The provided model API key is invalid. Please check your MODEL_API_KEY value."
    else if status == some 403 then
      "Authentication failed: Access to the requested OpenRouter resource is forbidden. Ensure your API key has access to the google/gemini-2.5-flash-image model."
    else if status == some 429 then
      "OpenRouter rate limit reached. Please wait a moment before retrying or review your plan limits."
    else if status == some 400 then
      "The request was rejected by OpenRouter: " ++ message
    else
      match status with
      | some s => if 500 ≤ s then
          "OpenRouter encountered an internal error while processing the request. Please try again later."
        else message
      | none => message
  | .other message =>
    if strContains (strToLower message) "fetch failed" then
      "Network error communicating with OpenRouter. Please check your internet connection and try again."
    else "An unexpected error occurred: " ++ message

/-- The fast-fail trigger of the orchestrator loops
(imageGenerator.ts:496 and 646): the classified message contains the
substring "authentication failed" case-insensitively. -/
def isAuthFailureMessage (msg : String) : Bool :=
  strContains (strToLower msg) "authentication failed"

/-! ### Requests, results, and the generation orchestrator

Embeds `ImageGenerationRequest` / `ImageGenerationResponse` (types.ts, as
consumed by imageGenerator.ts) and the three entry flows.  The provider is
an oracle from the index of the HTTP call to its outcome; file writes are
modelled by appending to the list of names in the output directory.
-/

inductive ProviderOutcome where
  | ok (response : OpenRouterImageResponse)
  | failure (e : ThrownError)

structure ImageGenerationRequest where
  prompt : String
  mode : String := "generate"
  outputCount : Option Nat := none
  styles : Option (List String) := none
  variations : Option (List String) := none
  seed : Option Int := none
  inputImage : Option String := none
  fileFormat : Option String := none
  preview : Bool := false
  noPreview : Bool := false

structure ImageGenerationResponse where
  success : Bool
  message : String
  generatedFiles : Option (List String) := none
  error : Option String := none
  deriving Repr

/-- Mutable state threaded through a generation flow: files written so far
(full paths), the first recorded error, the file names present in the
output directory, and the number of provider calls issued. -/
structure GenState where
  generatedFiles : List String := []
  firstError : Option String := none
  existingNames : List String := []
  calls : Nat := 0
  deriving Repr

/-- The fixed output directory (`nanobanana-output` under the working
directory; the working-directory part is not modelled). -/
def outputDirPath : String := "nanobanana-output"

/-- `resolveFileFormat` (imageGenerator.ts:416-420). -/
def resolveFileFormat (request : ImageGenerationRequest) : String :=
  jsStrDefault request.fileFormat "png"

/-! #### Prompt compiler -/

/-- The per-variation expansion table of `buildBatchPrompts`
(imageGenerator.ts:356-392): each known tag contributes two suffixed
prompts, an unknown tag contributes the raw tag text. -/
def expandVariation (baseP variation : String) : List String :=
  if variation == "lighting" then
    [baseP ++ ", dramatic lighting", baseP ++ ", soft lighting"]
  else if variation == "angle" then
    [baseP ++ ", from above", baseP ++ ", close-up view"]
  else if variation == "color-palette" then
    [baseP ++ ", warm color palette", baseP ++ ", cool color palette"]
  else if variation == "composition" then
    [baseP ++ ", centered composition", baseP ++ ", rule of thirds composition"]
  else if variation == "mood" then
    [baseP ++ ", cheerful mood", baseP ++ ", dramatic mood"]
  else if variation == "season" then
    [baseP ++ ", in spring", baseP ++ ", in winter"]
  else if variation == "time-of-day" then
    [baseP ++ ", at sunrise", baseP ++ ", at sunset"]
  else
    [baseP ++ ", " ++ variation]

/-- Number of prompts one variation tag contributes per base prompt. -/
def variationWeight (variation : String) : Nat :=
  if variation == "lighting" then 2
  else if variation == "angle" then 2
  else if variation == "color-palette" then 2
  else if variation == "composition" then 2
  else if variation == "mood" then 2
  else if variation == "season" then 2
  else if variation == "time-of-day" then 2
  else 1

/-- The style pass of `buildBatchPrompts` (imageGenerator.ts:346-350). -/
def stylePass (basePrompt : String) (styles : Option (List String)) : List String :=
  match styles with
  | some styles =>
    if styles.length > 0 then
      styles.map (fun style => basePrompt ++ ", " ++ style ++ " style")
    else []
  | none => []

/-- The variation pass of `buildBatchPrompts` (imageGenerator.ts:352-397):
a cross product over the style-expanded set (or the base prompt when that
set is empty), replacing the accumulated prompts when non-empty. -/
def variationPass (basePrompt : String) (variations : Option (List String))
    (prompts : List String) : List String :=
  match variations with
  | some variations =>
    if variations.length > 0 then
      let basePrompts := if prompts.length > 0 then prompts else [basePrompt]
      let variationPrompts :=
        basePrompts.flatMap (fun baseP => variations.flatMap (expandVariation baseP))
      if variationPrompts.length > 0 then variationPrompts else prompts
    else prompts
  | none => prompts

/-- The plain-batch pass of `buildBatchPrompts` (imageGenerator.ts:399-407):
with no prompts so far and an output count above one, repeat the base
prompt. -/
def countPass (basePrompt : String) (outputCount : Option Nat)
    (prompts : List String) : List String :=
  if prompts.length == 0 && jsTruthyCount outputCount && outputCount.getD 0 > 1 then
    List.replicate (outputCount.getD 0) basePrompt
  else prompts

/-- The truncation pass of `buildBatchPrompts` (imageGenerator.ts:409-411). -/
def capPass (outputCount : Option Nat) (prompts : List String) : List String :=
  match outputCount with
  | some n => if n != 0 && prompts.length > n then prompts.take n else prompts
  | none => prompts

/-- `buildBatchPrompts` (imageGenerator.ts:338-414), as the composition of
its four passes with the early return and the final fallback. -/
def buildBatchPrompts (request : ImageGenerationRequest) : List String :=
  let basePrompt := request.prompt
  if request.styles.isNone && request.variations.isNone &&
      !jsTruthyCount request.outputCount then
    [basePrompt]
  else
    let capped := capPass request.outputCount
      (countPass basePrompt request.outputCount
        (variationPass basePrompt request.variations
          (stylePass basePrompt request.styles)))
    if capped.length > 0 then capped else [basePrompt]

/-! #### generateTextToImage -/

/-- The prompt used for the saved filename of variation `i`
(imageGenerator.ts:469-473): the expanded prompt when styles or variations
were supplied, else the base prompt. -/
def filenamePrompt (request : ImageGenerationRequest) (currentPrompt : String) : String :=
  if request.styles.isSome || request.variations.isSome then currentPrompt else request.prompt

/-- One provider call was issued. -/
def bumpCalls (st : GenState) : GenState := { st with calls := st.calls + 1 }

/-- A decoded image was saved: the generated filename is recorded in the
output directory and its full path collected. -/
def savedState (st : GenState) (promptForName ff : String) (i : Nat) : GenState :=
  let filename := generateFilename st.existingNames promptForName ff i
  let fullPath := pathJoin outputDirPath filename
  { st with generatedFiles := st.generatedFiles ++ [fullPath],
            existingNames := st.existingNames ++ [filename] }

/-- A call failed: keep the first recorded error message. -/
def recordError (st : GenState) (errorMessage : String) : GenState :=
  { st with firstError := some (st.firstError.getD errorMessage) }

/-- The per-prompt loop of `generateTextToImage` (imageGenerator.ts:434-504).
Returns the final state and, when the loop aborted on an authentication
failure, the classified message it aborted with. -/
def generateLoop (provider : Nat → ProviderOutcome) (request : ImageGenerationRequest)
    (fileFormat : String) : List String → Nat → GenState → GenState × Option String
  | [], _, st => (st, none)
  | currentPrompt :: rest, i, st =>
    match provider st.calls with
    | .ok response =>
      match parseImageFromResponse response with
      | some _imageBase64 =>
        generateLoop provider request fileFormat rest (i + 1)
          (savedState (bumpCalls st) (filenamePrompt request currentPrompt) fileFormat i)
      | none => generateLoop provider request fileFormat rest (i + 1) (bumpCalls st)
    | .failure e =>
      let errorMessage := handleApiError e
      if isAuthFailureMessage errorMessage then
        (recordError (bumpCalls st) errorMessage, some errorMessage)
      else generateLoop provider request fileFormat rest (i + 1)
        (recordError (bumpCalls st) errorMessage)

/-- `generateTextToImage` (imageGenerator.ts:422-531), returning both the
final loop state (for observability of calls and written files) and the
RPC-visible response. -/
def generateTextToImageRun (provider : Nat → ProviderOutcome)
    (existingNames : List String) (request : ImageGenerationRequest) :
    GenState × ImageGenerationResponse :=
  let prompts := buildBatchPrompts request
  let fileFormat := resolveFileFormat request
  let init : GenState := { existingNames := existingNames }
  match generateLoop provider request fileFormat prompts 0 init with
  | (st, some abortMessage) =>
    (st, { success := false, message := "Image generation failed", error := some abortMessage })
  | (st, none) =>
    if st.generatedFiles.length == 0 then
      (st, { success := false, message := "Failed to generate any images",
             error := some (st.firstError.getD
               "No image data returned from OpenRouter. Try adjusting your prompt.") })
    else
      (st, { success := true,
             message := "Successfully generated " ++ toString st.generatedFiles.length
               ++ " image variation(s)",
             generatedFiles := some st.generatedFiles })

/-! #### generateStorySequence -/

structure StorySequenceArgs where
  type : Option String := none
  style : Option String := none
  transition : Option String := none

/-- Step-prompt construction of `generateStorySequence`
(imageGenerator.ts:564-587). -/
def storyStepPrompt (basePrompt type style transition : String)
    (steps stepNumber : Nat) : String :=
  let base := basePrompt ++ ", step " ++ toString stepNumber ++ " of " ++ toString steps
  let typed :=
    if type == "story" then base ++ ", narrative sequence, " ++ style ++ " art style"
    else if type == "process" then base ++ ", procedural step, instructional illustration"
    else if type == "tutorial" then base ++ ", tutorial step, educational diagram"
    else if type == "timeline" then base ++ ", chronological progression, timeline visualization"
    else base ++ ", " ++ type ++ " sequence"
  if stepNumber > 1 then typed ++ ", " ++ transition ++ " transition from previous step"
  else typed

/-- The per-step loop of `generateStorySequence`
(imageGenerator.ts:563-660).  Only the fields of the request that the loop
reads are passed in (the base prompt for filenames). -/
def storyLoop (provider : Nat → ProviderOutcome) (basePrompt type : String) :
    List Nat → GenState → GenState × Option String
  | [], st => (st, none)
  | i :: rest, st =>
    let stepNumber := i + 1
    match provider st.calls with
    | .ok response =>
      match parseImageFromResponse response with
      | some _imageBase64 =>
        storyLoop provider basePrompt type rest
          (savedState (bumpCalls st) (type ++ "step" ++ toString stepNumber ++ basePrompt)
            "png" 0)
      | none => storyLoop provider basePrompt type rest (bumpCalls st)
    | .failure e =>
      let errorMessage := handleApiError e
      if isAuthFailureMessage errorMessage then
        (recordError (bumpCalls st) errorMessage, some errorMessage)
      else storyLoop provider basePrompt type rest (recordError (bumpCalls st) errorMessage)

/-- The step count of `generateStorySequence` (imageGenerator.ts:555):
`request.outputCount || 4`. -/
def storySteps (request : ImageGenerationRequest) : Nat :=
  match request.outputCount with
  | some n => if n != 0 then n else 4
  | none => 4

/-- `generateStorySequence` (imageGenerator.ts:548-696). -/
def generateStorySequenceRun (provider : Nat → ProviderOutcome)
    (existingNames : List String) (request : ImageGenerationRequest)
    (args : Option StorySequenceArgs) :
    GenState × ImageGenerationResponse :=
  let steps := storySteps request
  let type := jsStrDefault (args.bind (fun a => a.type)) "story"
  let init : GenState := { existingNames := existingNames }
  match storyLoop provider request.prompt type (List.range steps) init with
  | (st, some abortMessage) =>
    (st, { success := false, message := "Story generation failed", error := some abortMessage })
  | (st, none) =>
    if st.generatedFiles.length == 0 then
      (st, { success := false, message := "Failed to generate any story sequence images",
             error := some (st.firstError.getD
               "No image data returned from OpenRouter. Try adjusting your prompt.") })
    else
      (st, { success := true,
             message :=
               if st.generatedFiles.length == steps then
                 "Successfully generated complete " ++ toString steps ++ "-step "
                   ++ type ++ " sequence"
               else
                 "Generated " ++ toString st.generatedFiles.length ++ " out of "
                   ++ toString steps ++ " requested " ++ type ++ " steps ("
                   ++ toString (steps - st.generatedFiles.length) ++ " steps failed)",
             generatedFiles := some st.generatedFiles })

/-! #### editImage -/

/-- `editImage` (imageGenerator.ts:698-789): resolve the input file, post a
single edit request, save the single resulting image.  The payload
(data-URL embedding of the source image) is not observable in the result
and is not modelled; the provider oracle supplies the outcome of the one
HTTP call. -/
def editImageRun (provider : Nat → ProviderOutcome) (fsExists : String → Bool)
    (searchPaths : List String) (existingNames : List String)
    (request : ImageGenerationRequest) : GenState × ImageGenerationResponse :=
  let init : GenState := { existingNames := existingNames }
  if !jsStrTruthy request.inputImage then
    (init, { success := false, message := "Input image file is required for editing",
             error := some "Missing inputImage parameter" })
  else
    let inputImage := (request.inputImage).getD ""
    let fileResult := findInputFile fsExists searchPaths inputImage
    if !fileResult.found then
      (init, { success := false, message := "Input image not found: " ++ inputImage,
               error := some ("Searched in: " ++ String.intercalate ", " fileResult.searchedPaths) })
    else
      match provider 0 with
      | .failure e =>
        ({ init with calls := 1 },
         { success := false, message := "Failed to " ++ request.mode ++ " image",
           error := some (handleApiError e) })
      | .ok response =>
        let st1 : GenState := { init with calls := 1 }
        match parseImageFromResponse response with
        | none =>
          (st1, { success := false, message := "Failed to " ++ request.mode ++ " image",
                  error := some "No image data returned in OpenRouter response" })
        | some _imageBase64 =>
          let filename := generateFilename existingNames
            (request.mode ++ "_" ++ request.prompt) "png" 0
          let fullPath := pathJoin outputDirPath filename
          ({ st1 with generatedFiles := [fullPath],
                      existingNames := existingNames ++ [filename] },
           { success := true, message := "Successfully " ++ request.mode ++ "d image",
             generatedFiles := some [fullPath] })

/-! ### Prompt compiler: length and non-emptiness -/

lemma length_expandVariation (baseP v : String) :
    (expandVariation baseP v).length = variationWeight v := by
  unfold expandVariation variationWeight
  split_ifs <;> rfl

lemma variationWeight_pos (v : String) : 1 ≤ variationWeight v := by
  unfold variationWeight
  split_ifs <;> decide

lemma sum_variationWeight_pos (V : List String) (h : V ≠ []) :
    1 ≤ (V.map variationWeight).sum := by
  cases V with
  | nil => exact absurd rfl h
  | cons v rest =>
    simp only [List.map_cons, List.sum_cons]
    have := variationWeight_pos v
    omega

lemma length_flatMap_expandVariation (baseP : String) (V : List String) :
    (V.flatMap (expandVariation baseP)).length = (V.map variationWeight).sum := by
  induction V with
  | nil => simp
  | cons v rest ih =>
    simp [List.flatMap_cons, length_expandVariation, ih]

lemma length_flatMap_variationPrompts (V : List String) :
    ∀ (l : List String),
      (l.flatMap (fun baseP => V.flatMap (expandVariation baseP))).length
        = l.length * (V.map variationWeight).sum := by
  intro l
  induction l with
  | nil => simp
  | cons a rest ih =>
    simp only [List.flatMap_cons, List.length_append, ih,
      length_flatMap_expandVariation, List.length_cons]
    ring

lemma stylePass_some (b : String) (S : List String) (h : S ≠ []) :
    stylePass b (some S) = S.map (fun style => b ++ ", " ++ style ++ " style") := by
  simp only [stylePass]
  rw [if_pos (List.length_pos.mpr h)]

lemma variationPass_some (b : String) (V prompts : List String)
    (hV : V ≠ []) (hp : prompts ≠ []) :
    variationPass b (some V) prompts
      = prompts.flatMap (fun baseP => V.flatMap (expandVariation baseP)) := by
  simp only [variationPass]
  rw [if_pos (List.length_pos.mpr hV)]
  rw [if_pos (List.length_pos.mpr hp)]
  have hlen : 0 < (prompts.flatMap (fun baseP => V.flatMap (expandVariation baseP))).length := by
    rw [length_flatMap_variationPrompts]
    exact Nat.mul_pos (List.length_pos.mpr hp) (sum_variationWeight_pos V hV)
  rw [if_pos hlen]

lemma countPass_of_ne_nil (b : String) (oc : Option Nat) (prompts : List String)
    (h : prompts ≠ []) : countPass b oc prompts = prompts := by
  unfold countPass
  have h0 : (prompts.length == 0) = false := by
    have := List.length_pos.mpr h
    simp only [beq_eq_false_iff_ne]
    omega
  rw [h0]
  simp

lemma countPass_replicate (b : String) (m : Nat) (hm : 1 < m) :
    countPass b (some m) [] = List.replicate m b := by
  unfold countPass
  rw [if_pos]
  · rfl
  · simp [jsTruthyCount]
    omega

lemma capPass_length (m : Nat) (prompts : List String) (hm : m ≠ 0) :
    (capPass (some m) prompts).length = min prompts.length m := by
  simp only [capPass]
  split_ifs with h
  · simp only [Bool.and_eq_true, bne_iff_ne, decide_eq_true_eq] at h
    rw [List.length_take]
    omega
  · have hle : ¬ prompts.length > m := by
      intro hh
      exact h (by simp only [Bool.and_eq_true, bne_iff_ne, decide_eq_true_eq]
                  exact ⟨hm, hh⟩)
    omega

/-- Claim C5: the compiled prompt set is never empty; when every expansion
pass produces nothing (no usable styles, variations, or output count above
one) the compiler falls back to the single-element list containing the
base prompt. -/
theorem buildBatchPrompts_never_empty :
    ∀ request : ImageGenerationRequest,
      buildBatchPrompts request ≠ []
    ∧ ((request.styles = none ∨ request.styles = some []) →
       (request.variations = none ∨ request.variations = some []) →
       (request.outputCount = none ∨ request.outputCount = some 0 ∨
          request.outputCount = some 1) →
       buildBatchPrompts request = [request.prompt]) := by
  intro request
  constructor
  · unfold buildBatchPrompts
    split
    · exact List.cons_ne_nil _ _
    · dsimp only
      split
      · next h => exact List.ne_nil_of_length_pos h
      · exact List.cons_ne_nil _ _
  · intro h1 h2 h3
    rcases h1 with h1 | h1 <;> rcases h2 with h2 | h2 <;>
      rcases h3 with h3 | h3 | h3 <;>
      (unfold buildBatchPrompts; rw [h1, h2, h3]; rfl)

/-- Witness for C5 at a concrete request with no expansions. -/
theorem buildBatchPrompts_never_empty_witness :
    buildBatchPrompts { prompt := "a fox" } ≠ []
  ∧ buildBatchPrompts { prompt := "a fox" } = ["a fox"] :=
  ⟨(buildBatchPrompts_never_empty { prompt := "a fox" }).1,
   (buildBatchPrompts_never_empty { prompt := "a fox" }).2
     (Or.inl rfl) (Or.inl rfl) (Or.inl rfl)⟩

/-- A request with one style, one known variation tag, and a large
output count. -/
def crossRequest : ImageGenerationRequest :=
  { prompt := "p", styles := some ["watercolor"], variations := some ["lighting"],
    outputCount := some 8 }

/-- Counterexample to claim C3 as stated: with one style and one variation
the claim predicts a set of size `|styles| * |variations| = 1` (the cross
product, capped at 8), but the compiler produces 2 prompts because the
known variation tag `lighting` expands each style prompt into two
suffixed prompts. -/
theorem buildBatchPrompts_cross_counterexample :
    (buildBatchPrompts crossRequest).length ≠
      min ((crossRequest.styles.getD []).length * (crossRequest.variations.getD []).length)
        (crossRequest.outputCount.getD 1) := by
  decide

/-- Claim C3 amended: with no styles and no variations the compiled set has
length `outputCount`; with non-empty styles and variations the length is
`|styles| * Σ (weight of each variation)` — each known variation tag
weighing 2 and unknown tags 1 — capped at `outputCount`. -/
theorem buildBatchPrompts_length_spec :
    (∀ (request : ImageGenerationRequest) (m : Nat),
      request.styles = none → request.variations = none →
      request.outputCount = some m → 1 ≤ m →
      (buildBatchPrompts request).length = m)
  ∧ (∀ (request : ImageGenerationRequest) (S V : List String) (m : Nat),
      request.styles = some S → S ≠ [] →
      request.variations = some V → V ≠ [] →
      request.outputCount = some m → 1 ≤ m →
      (buildBatchPrompts request).length
        = min (S.length * (V.map variationWeight).sum) m) := by
  constructor
  · intro request m hS hV hm h1m
    unfold buildBatchPrompts
    rw [hS, hV, hm]
    have hcond : ((none : Option (List String)).isNone
        && (none : Option (List String)).isNone && !jsTruthyCount (some m)) = false := by
      simp [jsTruthyCount]
      omega
    rw [hcond]
    simp only [Bool.false_eq_true, if_false]
    rcases Nat.lt_or_ge 1 m with hgt | hle
    · rw [show variationPass request.prompt none (stylePass request.prompt none)
            = [] from rfl,
          countPass_replicate request.prompt m hgt]
      have hlen : (capPass (some m) (List.replicate m request.prompt)).length = m := by
        rw [capPass_length m _ (by omega), List.length_replicate]
        omega
      rw [if_pos (by rw [hlen]; omega)]
      exact hlen
    · have hm1 : m = 1 := by omega
      subst hm1
      rfl
  · intro request S V m hS hSne hV hVne hm h1m
    unfold buildBatchPrompts
    rw [hS, hV, hm]
    have hcond : ((some S).isNone && (some V).isNone && !jsTruthyCount (some m)) = false := by
      simp
    rw [hcond]
    simp only [Bool.false_eq_true, if_false]
    rw [stylePass_some request.prompt S hSne]
    have hmapne : S.map (fun style => request.prompt ++ ", " ++ style ++ " style") ≠ [] := by
      simpa using hSne
    rw [variationPass_some request.prompt V _ hVne hmapne]
    have hflat : ((S.map (fun style => request.prompt ++ ", " ++ style ++ " style")).flatMap
        (fun baseP => V.flatMap (expandVariation baseP))).length
        = S.length * (V.map variationWeight).sum := by
      rw [length_flatMap_variationPrompts, List.length_map]
    have hraw : 1 ≤ S.length * (V.map variationWeight).sum :=
      Nat.mul_pos (List.length_pos.mpr hSne) (sum_variationWeight_pos V hVne)
    have hne : (S.map (fun style => request.prompt ++ ", " ++ style ++ " style")).flatMap
        (fun baseP => V.flatMap (expandVariation baseP)) ≠ [] := by
      apply List.ne_nil_of_length_pos
      rw [hflat]
      omega
    rw [countPass_of_ne_nil _ _ _ hne]
    have hcapped : (capPass (some m) ((S.map
        (fun style => request.prompt ++ ", " ++ style ++ " style")).flatMap
        (fun baseP => V.flatMap (expandVariation baseP)))).length
        = min (S.length * (V.map variationWeight).sum) m := by
      rw [capPass_length m _ (by omega), hflat]
    rw [if_pos (by rw [hcapped]; omega)]
    exact hcapped

/-- Witness for the amended C3 at concrete requests: a plain 3-image batch
compiles to 3 prompts, and one style with one known variation tag and cap 8
compiles to `min (1 * 2) 8 = 2` prompts. -/
theorem buildBatchPrompts_length_spec_witness :
    (buildBatchPrompts { prompt := "p", outputCount := some 3 }).length = 3
  ∧ (buildBatchPrompts crossRequest).length
      = min ((["watercolor"] : List String).length
          * ((["lighting"] : List String).map variationWeight).sum) 8 := by
  constructor
  · exact buildBatchPrompts_length_spec.1 _ 3 rfl rfl rfl (by omega)
  · exact buildBatchPrompts_length_spec.2 crossRequest ["watercolor"] ["lighting"] 8
      rfl (by simp) rfl (by simp) rfl (by omega)

/-! ### Orchestrator lemmas -/

@[simp] lemma bumpCalls_calls (st : GenState) : (bumpCalls st).calls = st.calls + 1 := rfl

@[simp] lemma bumpCalls_firstError (st : GenState) :
    (bumpCalls st).firstError = st.firstError := rfl

@[simp] lemma bumpCalls_generatedFiles (st : GenState) :
    (bumpCalls st).generatedFiles = st.generatedFiles := rfl

@[simp] lemma savedState_calls (st : GenState) (p ff : String) (i : Nat) :
    (savedState st p ff i).calls = st.calls := rfl

@[simp] lemma savedState_firstError (st : GenState) (p ff : String) (i : Nat) :
    (savedState st p ff i).firstError = st.firstError := rfl

lemma savedState_generatedFiles (st : GenState) (p ff : String) (i : Nat) :
    (savedState st p ff i).generatedFiles
      = st.generatedFiles
          ++ [pathJoin outputDirPath (generateFilename st.existingNames p ff i)] := rfl

@[simp] lemma recordError_calls (st : GenState) (m : String) :
    (recordError st m).calls = st.calls := rfl

@[simp] lemma recordError_firstError (st : GenState) (m : String) :
    (recordError st m).firstError = some (st.firstError.getD m) := rfl

@[simp] lemma recordError_generatedFiles (st : GenState) (m : String) :
    (recordError st m).generatedFiles = st.generatedFiles := rfl

/-- The first classified error among the outcomes of `count` consecutive
provider calls starting at call index `start`. -/
def firstErrorFrom (provider : Nat → ProviderOutcome) : Nat → Nat → Option String
  | _, 0 => none
  | start, n + 1 =>
    match provider start with
    | .failure e => some (handleApiError e)
    | .ok _ => firstErrorFrom provider (start + 1) n

set_option maxRecDepth 10000 in
lemma isAuth_handleApiError_401 (msg : String) :
    isAuthFailureMessage (handleApiError (.api msg (some 401))) = true := by
  rfl

lemma generateLoop_auth_abort (provider : Nat → ProviderOutcome)
    (request : ImageGenerationRequest) (ff : String) (p : String) (rest : List String)
    (i : Nat) (st : GenState) (e : ThrownError)
    (hp : provider st.calls = .failure e)
    (hauth : isAuthFailureMessage (handleApiError e) = true) :
    generateLoop provider request ff (p :: rest) i st
      = (recordError (bumpCalls st) (handleApiError e), some (handleApiError e)) := by
  simp only [generateLoop, hp]
  rw [if_pos hauth]

/-- Claim C2: with a provider client failing every call with HTTP 401, a
batch of more than one compiled prompt issues exactly one provider call
(the remaining batch is aborted on the first classified authentication
failure) and returns success=false whose error detail contains
"authentication failed" case-insensitively. -/
theorem generateTextToImage_auth_fast_fail :
    ∀ (provider : Nat → ProviderOutcome) (existingNames : List String)
      (request : ImageGenerationRequest),
      (∀ n, ∃ msg, provider n = .failure (.api msg (some 401))) →
      1 < (buildBatchPrompts request).length →
      (generateTextToImageRun provider existingNames request).1.calls = 1
    ∧ (generateTextToImageRun provider existingNames request).2.success = false
    ∧ ∃ e, (generateTextToImageRun provider existingNames request).2.error = some e
        ∧ isAuthFailureMessage e = true := by
  intro provider names request hprov hlen
  obtain ⟨p, rest, hpr⟩ : ∃ p rest, buildBatchPrompts request = p :: rest := by
    cases h : buildBatchPrompts request with
    | nil => rw [h] at hlen; simp at hlen
    | cons a t => exact ⟨a, t, rfl⟩
  obtain ⟨msg, hmsg⟩ := hprov 0
  have habort := generateLoop_auth_abort provider request (resolveFileFormat request)
    p rest 0 { existingNames := names } (.api msg (some 401))
    hmsg (isAuth_handleApiError_401 msg)
  unfold generateTextToImageRun
  rw [hpr]
  dsimp only
  rw [habort]
  exact ⟨rfl, rfl, handleApiError (.api msg (some 401)), rfl,
    isAuth_handleApiError_401 msg⟩

/-- Witness for C2: a concrete 3-prompt batch against an always-401
provider issues exactly one call and fails with an authentication message. -/
theorem generateTextToImage_auth_fast_fail_witness :
    (generateTextToImageRun (fun _ => .failure (.api "Unauthorized" (some 401))) []
        { prompt := "p", outputCount := some 3 }).1.calls = 1
  ∧ (generateTextToImageRun (fun _ => .failure (.api "Unauthorized" (some 401))) []
        { prompt := "p", outputCount := some 3 }).2.success = false
  ∧ ∃ e, (generateTextToImageRun (fun _ => .failure (.api "Unauthorized" (some 401))) []
        { prompt := "p", outputCount := some 3 }).2.error = some e
      ∧ isAuthFailureMessage e = true := by
  exact generateTextToImage_auth_fast_fail _ [] _
    (fun n => ⟨"Unauthorized", rfl⟩) (by decide)

/-- Provider that succeeds on the first call with a valid inline image and
fails every later call with HTTP 401. -/
def partialThenAuthProvider : Nat → ProviderOutcome := fun n =>
  if n == 0 then
    .ok { output := some [{ type := some "image_generation_call", result := some bigBase64 }] }
  else .failure (.api "Unauthorized" (some 401))

set_option maxRecDepth 10000 in
/-- Counterexample to claim C1 as stated: in a 2-prompt batch where the
first item saves a file and the second call fails with HTTP 401, the
authentication fast-fail aborts the batch and returns success=false even
though one item produced a saved file — contradicting "success=true
whenever at least one item produced a saved file". -/
theorem generationResult_invariant_counterexample :
    (generateTextToImageRun partialThenAuthProvider []
        { prompt := "a cat", outputCount := some 2 }).1.generatedFiles
      = [pathJoin outputDirPath "a_cat.png"]
  ∧ (generateTextToImageRun partialThenAuthProvider []
        { prompt := "a cat", outputCount := some 2 }).2.success = false := by
  constructor <;> rfl

lemma t2iRun_success_iff (provider : Nat → ProviderOutcome) (names : List String)
    (request : ImageGenerationRequest) :
    (generateTextToImageRun provider names request).2.success = true ↔
      ∃ l, (generateTextToImageRun provider names request).2.generatedFiles = some l
        ∧ l ≠ [] := by
  unfold generateTextToImageRun
  dsimp only
  rcases generateLoop provider request (resolveFileFormat request)
    (buildBatchPrompts request) 0 { existingNames := names } with ⟨st, abort⟩
  cases abort with
  | some m => simp
  | none =>
    by_cases hlen : st.generatedFiles.length = 0
    · simp [hlen]
    · have hbeq : (st.generatedFiles.length == 0) = false := by
        simpa using hlen
      have hne : st.generatedFiles ≠ [] := by
        intro hh
        rw [hh] at hlen
        exact hlen rfl
      simp only [hbeq, Bool.false_eq_true, if_false]
      constructor
      · intro _
        exact ⟨st.generatedFiles, rfl, hne⟩
      · intro _
        trivial

lemma storyRun_success_iff (provider : Nat → ProviderOutcome) (names : List String)
    (request : ImageGenerationRequest) (args : Option StorySequenceArgs) :
    (generateStorySequenceRun provider names request args).2.success = true ↔
      ∃ l, (generateStorySequenceRun provider names request args).2.generatedFiles = some l
        ∧ l ≠ [] := by
  unfold generateStorySequenceRun
  dsimp only
  rcases storyLoop provider request.prompt
    (jsStrDefault (args.bind (fun a => a.type)) "story")
    (List.range (storySteps request)) { existingNames := names } with ⟨st, abort⟩
  cases abort with
  | some m => simp
  | none =>
    by_cases hlen : st.generatedFiles.length = 0
    · simp [hlen]
    · have hbeq : (st.generatedFiles.length == 0) = false := by
        simpa using hlen
      have hne : st.generatedFiles ≠ [] := by
        intro hh
        rw [hh] at hlen
        exact hlen rfl
      simp only [hbeq, Bool.false_eq_true, if_false]
      constructor
      · intro _
        exact ⟨st.generatedFiles, rfl, hne⟩
      · intro _
        trivial

lemma editRun_success_iff (provider : Nat → ProviderOutcome) (fsExists : String → Bool)
    (searchPaths : List String) (names : List String)
    (request : ImageGenerationRequest) :
    (editImageRun provider fsExists searchPaths names request).2.success = true ↔
      ∃ l, (editImageRun provider fsExists searchPaths names request).2.generatedFiles
          = some l ∧ l ≠ [] := by
  unfold editImageRun
  dsimp only
  split_ifs with h1 h2
  · simp
  · simp
  · cases hp : provider 0 with
    | failure e => simp
    | ok resp =>
      cases hparse : parseImageFromResponse resp with
      | none => simp [hparse]
      | some img => simp [hparse]

lemma firstErrorFrom_ok (provider : Nat → ProviderOutcome) (start n : Nat)
    (resp : OpenRouterImageResponse) (hp : provider start = .ok resp) :
    firstErrorFrom provider start (n + 1) = firstErrorFrom provider (start + 1) n := by
  simp only [firstErrorFrom, hp]

lemma firstErrorFrom_failure (provider : Nat → ProviderOutcome) (start n : Nat)
    (e : ThrownError) (hp : provider start = .failure e) :
    firstErrorFrom provider start (n + 1) = some (handleApiError e) := by
  simp only [firstErrorFrom, hp]

lemma generateLoop_abort_is_auth (provider : Nat → ProviderOutcome)
    (request : ImageGenerationRequest) (ff : String) :
    ∀ (prompts : List String) (i : Nat) (st : GenState) (msg : String),
      (generateLoop provider request ff prompts i st).2 = some msg →
      isAuthFailureMessage msg = true := by
  intro prompts
  induction prompts with
  | nil =>
    intro i st msg h
    simp [generateLoop] at h
  | cons p rest ih =>
    intro i st msg h
    simp only [generateLoop] at h
    cases hp : provider st.calls with
    | ok resp =>
      rw [hp] at h
      dsimp only at h
      cases hparse : parseImageFromResponse resp with
      | some img =>
        rw [hparse] at h
        exact ih _ _ _ h
      | none =>
        rw [hparse] at h
        exact ih _ _ _ h
    | failure e =>
      rw [hp] at h
      dsimp only at h
      split_ifs at h with hcond
      · dsimp only at h
        exact (Option.some.inj h) ▸ hcond
      · exact ih _ _ _ h

lemma generateLoop_no_auth (provider : Nat → ProviderOutcome)
    (request : ImageGenerationRequest) (ff : String) :
    ∀ (prompts : List String) (i : Nat) (st : GenState),
      (∀ k, k < prompts.length → ∀ e, provider (st.calls + k) = .failure e →
        isAuthFailureMessage (handleApiError e) = false) →
      (generateLoop provider request ff prompts i st).2 = none
    ∧ (generateLoop provider request ff prompts i st).1.calls = st.calls + prompts.length
    ∧ (∀ x, st.firstError = some x →
        (generateLoop provider request ff prompts i st).1.firstError = some x)
    ∧ (st.firstError = none →
        (generateLoop provider request ff prompts i st).1.firstError
          = firstErrorFrom provider st.calls prompts.length) := by
  intro prompts
  induction prompts with
  | nil =>
    intro i st h
    refine ⟨rfl, by simp [generateLoop], ?_, ?_⟩
    · intro x hx
      simpa [generateLoop] using hx
    · intro hx
      simp [generateLoop, firstErrorFrom, hx]
  | cons p rest ih =>
    intro i st h
    have htail : ∀ (st2 : GenState), st2.calls = st.calls + 1 →
        (∀ k, k < rest.length → ∀ e, provider (st2.calls + k) = .failure e →
          isAuthFailureMessage (handleApiError e) = false) := by
      intro st2 hc k hk e he
      apply h (k + 1) (by simp only [List.length_cons]; omega) e
      rw [hc] at he
      rw [show st.calls + (k + 1) = st.calls + 1 + k from by omega]
      exact he
    cases hp : provider st.calls with
    | ok resp =>
      cases hparse : parseImageFromResponse resp with
      | some img =>
        have hih := ih (i + 1)
          (savedState (bumpCalls st) (filenamePrompt request p) ff i)
          (htail _ (by simp))
        refine ⟨?_, ?_, ?_, ?_⟩ <;> simp only [generateLoop, hp, hparse]
        · exact hih.1
        · rw [hih.2.1]
          simp only [savedState_calls, bumpCalls_calls, List.length_cons]
          omega
        · intro x hx
          exact hih.2.2.1 x (by simp [hx])
        · intro hx
          rw [hih.2.2.2 (by simp [hx])]
          simp only [savedState_calls, bumpCalls_calls, List.length_cons]
          rw [firstErrorFrom_ok provider st.calls rest.length resp hp]
      | none =>
        have hih := ih (i + 1) (bumpCalls st) (htail _ (by simp))
        refine ⟨?_, ?_, ?_, ?_⟩ <;> simp only [generateLoop, hp, hparse]
        · exact hih.1
        · rw [hih.2.1]
          simp only [bumpCalls_calls, List.length_cons]
          omega
        · intro x hx
          exact hih.2.2.1 x (by simp [hx])
        · intro hx
          rw [hih.2.2.2 (by simp [hx])]
          simp only [bumpCalls_calls, List.length_cons]
          rw [firstErrorFrom_ok provider st.calls rest.length resp hp]
    | failure e =>
      have hauth : isAuthFailureMessage (handleApiError e) = false :=
        h 0 (by simp) e (by rw [Nat.add_zero]; exact hp)
      have hih := ih (i + 1) (recordError (bumpCalls st) (handleApiError e))
        (htail _ (by simp))
      refine ⟨?_, ?_, ?_, ?_⟩ <;> simp only [generateLoop, hp] <;>
        rw [if_neg (by simp [hauth])]
      · exact hih.1
      · rw [hih.2.1]
        simp only [recordError_calls, bumpCalls_calls, List.length_cons]
        omega
      · intro x hx
        exact hih.2.2.1 x (by simp [hx])
      · intro hx
        rw [hih.2.2.1 (handleApiError e) (by simp [hx])]
        simp only [List.length_cons]
        rw [firstErrorFrom_failure provider st.calls rest.length e hp]

lemma storyLoop_abort_is_auth (provider : Nat → ProviderOutcome)
    (basePrompt type : String) :
    ∀ (idxs : List Nat) (st : GenState) (msg : String),
      (storyLoop provider basePrompt type idxs st).2 = some msg →
      isAuthFailureMessage msg = true := by
  intro idxs
  induction idxs with
  | nil =>
    intro st msg h
    simp [storyLoop] at h
  | cons i rest ih =>
    intro st msg h
    simp only [storyLoop] at h
    cases hp : provider st.calls with
    | ok resp =>
      rw [hp] at h
      dsimp only at h
      cases hparse : parseImageFromResponse resp with
      | some img =>
        rw [hparse] at h
        exact ih _ _ h
      | none =>
        rw [hparse] at h
        exact ih _ _ h
    | failure e =>
      rw [hp] at h
      dsimp only at h
      split_ifs at h with hcond
      · dsimp only at h
        exact (Option.some.inj h) ▸ hcond
      · exact ih _ _ h

lemma storyLoop_no_auth (provider : Nat → ProviderOutcome) (basePrompt type : String) :
    ∀ (idxs : List Nat) (st : GenState),
      (∀ k, k < idxs.length → ∀ e, provider (st.calls + k) = .failure e →
        isAuthFailureMessage (handleApiError e) = false) →
      (storyLoop provider basePrompt type idxs st).2 = none
    ∧ (storyLoop provider basePrompt type idxs st).1.calls = st.calls + idxs.length
    ∧ (∀ x, st.firstError = some x →
        (storyLoop provider basePrompt type idxs st).1.firstError = some x)
    ∧ (st.firstError = none →
        (storyLoop provider basePrompt type idxs st).1.firstError
          = firstErrorFrom provider st.calls idxs.length) := by
  intro idxs
  induction idxs with
  | nil =>
    intro st h
    refine ⟨rfl, by simp [storyLoop], ?_, ?_⟩
    · intro x hx
      simpa [storyLoop] using hx
    · intro hx
      simp [storyLoop, firstErrorFrom, hx]
  | cons i rest ih =>
    intro st h
    have htail : ∀ (st2 : GenState), st2.calls = st.calls + 1 →
        (∀ k, k < rest.length → ∀ e, provider (st2.calls + k) = .failure e →
          isAuthFailureMessage (handleApiError e) = false) := by
      intro st2 hc k hk e he
      apply h (k + 1) (by simp only [List.length_cons]; omega) e
      rw [hc] at he
      rw [show st.calls + (k + 1) = st.calls + 1 + k from by omega]
      exact he
    cases hp : provider st.calls with
    | ok resp =>
      cases hparse : parseImageFromResponse resp with
      | some img =>
        have hih := ih (savedState (bumpCalls st)
          (type ++ "step" ++ toString (i + 1) ++ basePrompt) "png" 0)
          (htail _ (by simp))
        refine ⟨?_, ?_, ?_, ?_⟩ <;> simp only [storyLoop, hp, hparse]
        · exact hih.1
        · rw [hih.2.1]
          simp only [savedState_calls, bumpCalls_calls, List.length_cons]
          omega
        · intro x hx
          exact hih.2.2.1 x (by simp [hx])
        · intro hx
          rw [hih.2.2.2 (by simp [hx])]
          simp only [savedState_calls, bumpCalls_calls, List.length_cons]
          rw [firstErrorFrom_ok provider st.calls rest.length resp hp]
      | none =>
        have hih := ih (bumpCalls st) (htail _ (by simp))
        refine ⟨?_, ?_, ?_, ?_⟩ <;> simp only [storyLoop, hp, hparse]
        · exact hih.1
        · rw [hih.2.1]
          simp only [bumpCalls_calls, List.length_cons]
          omega
        · intro x hx
          exact hih.2.2.1 x (by simp [hx])
        · intro hx
          rw [hih.2.2.2 (by simp [hx])]
          simp only [bumpCalls_calls, List.length_cons]
          rw [firstErrorFrom_ok provider st.calls rest.length resp hp]
    | failure e =>
      have hauth : isAuthFailureMessage (handleApiError e) = false :=
        h 0 (by simp) e (by rw [Nat.add_zero]; exact hp)
      have hih := ih (recordError (bumpCalls st) (handleApiError e))
        (htail _ (by simp))
      refine ⟨?_, ?_, ?_, ?_⟩ <;> simp only [storyLoop, hp] <;>
        rw [if_neg (by simp [hauth])]
      · exact hih.1
      · rw [hih.2.1]
        simp only [recordError_calls, bumpCalls_calls, List.length_cons]
        omega
      · intro x hx
        exact hih.2.2.1 x (by simp [hx])
      · intro hx
        rw [hih.2.2.1 (handleApiError e) (by simp [hx])]
        simp only [List.length_cons]
        rw [firstErrorFrom_failure provider st.calls rest.length e hp]

/-- Claim C1 amended: success=true ⇔ generatedFiles is a non-empty list,
for all three generation operations.  Both batch operations
(generateTextToImage and generateStorySequence) return success=true
whenever at least one item produced a saved file AND no authentication
fast-fail aborted the batch; when the provider raises no
authentication-class failure, success=false holds exactly when zero items
succeeded, and the result then carries the first recorded error detail
(or the fixed no-image message when no call threw).  An authentication
failure aborts with success=false even when earlier items saved files, and
in that case the surfaced error is the authentication message. -/
theorem generationResult_invariant_spec :
    ∀ (provider : Nat → ProviderOutcome) (fsExists : String → Bool)
      (searchPaths : List String) (names : List String)
      (request : ImageGenerationRequest) (args : Option StorySequenceArgs),
      ((generateTextToImageRun provider names request).2.success = true ↔
        ∃ l, (generateTextToImageRun provider names request).2.generatedFiles = some l
          ∧ l ≠ [])
    ∧ ((generateStorySequenceRun provider names request args).2.success = true ↔
        ∃ l, (generateStorySequenceRun provider names request args).2.generatedFiles
            = some l ∧ l ≠ [])
    ∧ ((editImageRun provider fsExists searchPaths names request).2.success = true ↔
        ∃ l, (editImageRun provider fsExists searchPaths names request).2.generatedFiles
            = some l ∧ l ≠ [])
    ∧ ((generateTextToImageRun provider names request).2.success = false →
        (generateTextToImageRun provider names request).1.generatedFiles ≠ [] →
        ∃ e, (generateTextToImageRun provider names request).2.error = some e
          ∧ isAuthFailureMessage e = true)
    ∧ ((∀ k, k < (buildBatchPrompts request).length → ∀ e,
          provider k = .failure e → isAuthFailureMessage (handleApiError e) = false) →
        ((generateTextToImageRun provider names request).2.success = false ↔
          (generateTextToImageRun provider names request).1.generatedFiles = [])
      ∧ ((generateTextToImageRun provider names request).1.generatedFiles = [] →
          (generateTextToImageRun provider names request).2.error
            = some ((firstErrorFrom provider 0 (buildBatchPrompts request).length).getD
                "No image data returned from OpenRouter. Try adjusting your prompt.")))
    ∧ ((generateStorySequenceRun provider names request args).2.success = false →
        (generateStorySequenceRun provider names request args).1.generatedFiles ≠ [] →
        ∃ e, (generateStorySequenceRun provider names request args).2.error = some e
          ∧ isAuthFailureMessage e = true)
    ∧ ((∀ k, k < storySteps request → ∀ e,
          provider k = .failure e → isAuthFailureMessage (handleApiError e) = false) →
        ((generateStorySequenceRun provider names request args).2.success = false ↔
          (generateStorySequenceRun provider names request args).1.generatedFiles = [])
      ∧ ((generateStorySequenceRun provider names request args).1.generatedFiles = [] →
          (generateStorySequenceRun provider names request args).2.error
            = some ((firstErrorFrom provider 0 (storySteps request)).getD
                "No image data returned from OpenRouter. Try adjusting your prompt."))) := by
  intro provider fsExists searchPaths names request args
  refine ⟨t2iRun_success_iff provider names request,
          storyRun_success_iff provider names request args,
          editRun_success_iff provider fsExists searchPaths names request,
          ?_, ?_, ?_, ?_⟩
  · unfold generateTextToImageRun
    dsimp only
    rcases hres : generateLoop provider request (resolveFileFormat request)
      (buildBatchPrompts request) 0 { existingNames := names } with ⟨st, abort⟩
    cases abort with
    | some m =>
      intro _ _
      exact ⟨m, rfl, generateLoop_abort_is_auth provider request _ _ _ _ m (by rw [hres])⟩
    | none =>
      by_cases hlen : st.generatedFiles.length = 0
      · have hbeq : (st.generatedFiles.length == 0) = true := by simpa using hlen
        simp only [hbeq, if_true]
        intro _ hfiles
        exact absurd (List.length_eq_zero.mp hlen) hfiles
      · have hbeq : (st.generatedFiles.length == 0) = false := by simpa using hlen
        simp only [hbeq, Bool.false_eq_true, if_false]
        intro hfail _
        exact absurd hfail (by simp)
  · intro hnoauth
    have hcalls0 : ({ existingNames := names } : GenState).calls = 0 := rfl
    have hloop := generateLoop_no_auth provider request (resolveFileFormat request)
      (buildBatchPrompts request) 0 { existingNames := names }
      (by
        intro k hk e he
        apply hnoauth k hk e
        rw [hcalls0, Nat.zero_add] at he
        exact he)
    obtain ⟨habort, _, _, hnone⟩ := hloop
    have hfe : ({ existingNames := names } : GenState).firstError = none := rfl
    have hnone' := hnone hfe
    rw [hcalls0] at hnone'
    unfold generateTextToImageRun
    dsimp only
    rcases hres : generateLoop provider request (resolveFileFormat request)
      (buildBatchPrompts request) 0 { existingNames := names } with ⟨st, abort⟩
    rw [hres] at habort hnone'
    dsimp only at habort hnone'
    subst habort
    dsimp only
    constructor
    · by_cases hlen : st.generatedFiles.length = 0
      · have hbeq : (st.generatedFiles.length == 0) = true := by simpa using hlen
        simp only [hbeq, if_true]
        simp [List.length_eq_zero.mp hlen]
      · have hbeq : (st.generatedFiles.length == 0) = false := by simpa using hlen
        simp only [hbeq, Bool.false_eq_true, if_false]
        constructor
        · intro hh
          exact absurd hh (by simp)
        · intro hh
          rw [hh] at hlen
          exact absurd rfl hlen
    · intro hfiles
      have hfiles' : st.generatedFiles = [] := by
        revert hfiles
        split <;> (intro hfiles; exact hfiles)
      have hlen : st.generatedFiles.length = 0 := by
        rw [hfiles']
        rfl
      have hbeq : (st.generatedFiles.length == 0) = true := by simpa using hlen
      simp only [hbeq, if_true]
      rw [hnone']
  · unfold generateStorySequenceRun
    dsimp only
    rcases hres : storyLoop provider request.prompt
      (jsStrDefault (args.bind (fun a => a.type)) "story")
      (List.range (storySteps request)) { existingNames := names } with ⟨st, abort⟩
    cases abort with
    | some m =>
      intro _ _
      exact ⟨m, rfl, storyLoop_abort_is_auth provider request.prompt _ _ _ m (by rw [hres])⟩
    | none =>
      by_cases hlen : st.generatedFiles.length = 0
      · have hbeq : (st.generatedFiles.length == 0) = true := by simpa using hlen
        simp only [hbeq, if_true]
        intro _ hfiles
        exact absurd (List.length_eq_zero.mp hlen) hfiles
      · have hbeq : (st.generatedFiles.length == 0) = false := by simpa using hlen
        simp only [hbeq, Bool.false_eq_true, if_false]
        intro hfail _
        exact absurd hfail (by simp)
  · intro hnoauth
    have hcalls0 : ({ existingNames := names } : GenState).calls = 0 := rfl
    have hloop := storyLoop_no_auth provider request.prompt
      (jsStrDefault (args.bind (fun a => a.type)) "story")
      (List.range (storySteps request)) { existingNames := names }
      (by
        intro k hk e he
        rw [List.length_range] at hk
        apply hnoauth k hk e
        rw [hcalls0, Nat.zero_add] at he
        exact he)
    obtain ⟨habort, _, _, hnone⟩ := hloop
    have hfe : ({ existingNames := names } : GenState).firstError = none := rfl
    have hnone' := hnone hfe
    rw [hcalls0, List.length_range] at hnone'
    unfold generateStorySequenceRun
    dsimp only
    rcases hres : storyLoop provider request.prompt
      (jsStrDefault (args.bind (fun a => a.type)) "story")
      (List.range (storySteps request)) { existingNames := names } with ⟨st, abort⟩
    rw [hres] at habort hnone'
    dsimp only at habort hnone'
    subst habort
    dsimp only
    constructor
    · by_cases hlen : st.generatedFiles.length = 0
      · have hbeq : (st.generatedFiles.length == 0) = true := by simpa using hlen
        simp only [hbeq, if_true]
        simp [List.length_eq_zero.mp hlen]
      · have hbeq : (st.generatedFiles.length == 0) = false := by simpa using hlen
        simp only [hbeq, Bool.false_eq_true, if_false]
        constructor
        · intro hh
          exact absurd hh (by simp)
        · intro hh
          rw [hh] at hlen
          exact absurd rfl hlen
    · intro hfiles
      have hfiles' : st.generatedFiles = [] := by
        revert hfiles
        split <;> (intro hfiles; exact hfiles)
      have hlen : st.generatedFiles.length = 0 := by
        rw [hfiles']
        rfl
      have hbeq : (st.generatedFiles.length == 0) = true := by simpa using hlen
      simp only [hbeq, if_true]
      rw [hnone']

/-- A provider response carrying one valid inline image. -/
def goodImageResponse : OpenRouterImageResponse :=
  { output := some [{ type := some "image_generation_call", result := some bigBase64 }] }

set_option maxRecDepth 10000 in
/-- Witness for the amended C1: a one-prompt request against an always-ok
provider succeeds (non-empty generatedFiles); against a provider whose
failures are not authentication failures, failure is equivalent to zero
saved files, both for a plain batch and for a 2-step story sequence. -/
theorem generationResult_invariant_spec_witness :
    (generateTextToImageRun (fun _ => .ok goodImageResponse) []
        { prompt := "a fox" }).2.success = true
  ∧ ((generateTextToImageRun (fun _ => .failure (.other "boom")) []
        { prompt := "a fox" }).2.success = false ↔
      (generateTextToImageRun (fun _ => .failure (.other "boom")) []
        { prompt := "a fox" }).1.generatedFiles = [])
  ∧ ((generateStorySequenceRun (fun _ => .failure (.other "boom")) []
        { prompt := "a fox", outputCount := some 2 } none).2.success = false ↔
      (generateStorySequenceRun (fun _ => .failure (.other "boom")) []
        { prompt := "a fox", outputCount := some 2 } none).1.generatedFiles = []) := by
  refine ⟨?_, ?_, ?_⟩
  · exact (generationResult_invariant_spec (fun _ => .ok goodImageResponse)
      (fun _ => false) [] [] { prompt := "a fox" } none).1.mpr
      ⟨[pathJoin outputDirPath "a_fox.png"], rfl, by simp⟩
  · exact ((generationResult_invariant_spec (fun _ => .failure (.other "boom"))
      (fun _ => false) [] [] { prompt := "a fox" } none).2.2.2.2.1
      (fun k hk e he => by
        injection he with h
        cases h
        decide)).1
  · exact ((generationResult_invariant_spec (fun _ => .failure (.other "boom"))
      (fun _ => false) [] [] { prompt := "a fox", outputCount := some 2 } none).2.2.2.2.2.2
      (fun k hk e he => by
        injection he with h
        cases h
        decide)).1

/-! ### editImage fast-fail on a missing input file -/

lemma findInputFile_not_found_searched (fsExists : String → Bool)
    (searchPaths : List String) (filename : String)
    (h : (findInputFile fsExists searchPaths filename).found = false) :
    (findInputFile fsExists searchPaths filename).searchedPaths = searchPaths := by
  unfold findInputFile at h ⊢
  split_ifs at h ⊢ with hc
  cases findFirstSearchHit fsExists filename searchPaths <;> rfl

/-- Claim C6: an edit/restore request whose input image cannot be located
returns success=false with an error listing the searched directories, and
issues no provider call (the final state records zero calls). -/
theorem editImage_missing_file_spec :
    ∀ (provider : Nat → ProviderOutcome) (fsExists : String → Bool)
      (searchPaths names : List String) (request : ImageGenerationRequest)
      (file : String),
      request.inputImage = some file → file ≠ "" →
      (findInputFile fsExists searchPaths file).found = false →
      editImageRun provider fsExists searchPaths names request
        = ({ existingNames := names },
           { success := false, message := "Input image not found: " ++ file,
             error := some ("Searched in: " ++ String.intercalate ", " searchPaths) }) := by
  intro provider fsExists searchPaths names request file hin hne hnotfound
  unfold editImageRun
  rw [hin]
  have ht : jsStrTruthy (some file) = true := by
    simp [jsStrTruthy, hne]
  rw [ht]
  simp only [Bool.not_true, Bool.false_eq_true, if_false]
  dsimp only [Option.getD_some]
  rw [hnotfound]
  simp only [Bool.not_false, if_true]
  rw [findInputFile_not_found_searched fsExists searchPaths file hnotfound]

/-- Witness for C6: a concrete request whose file is not found anywhere. -/
theorem editImage_missing_file_spec_witness :
    editImageRun (fun _ => .failure (.other "net")) (fun _ => false) ["d1", "d2"] []
        { prompt := "p", mode := "edit", inputImage := some "img.png" }
      = ({ existingNames := [] },
         { success := false, message := "Input image not found: " ++ "img.png",
           error := some ("Searched in: " ++ String.intercalate ", " ["d1", "d2"]) }) :=
  editImage_missing_file_spec _ _ _ _ _ "img.png" rfl (by decide) (by decide)

/-! ### Story sequences always save as png -/

lemma collisionLoop_ext_form (existing : List String) (b ext : String) :
    ∀ (fuel counter : Nat) (fileName : String),
      (∃ s, fileName = s ++ "." ++ ext) →
      ∃ s, collisionLoop existing b ext fuel fileName counter = s ++ "." ++ ext := by
  intro fuel
  induction fuel with
  | zero =>
    intro counter fileName h
    exact h
  | succ n ih =>
    intro counter fileName h
    simp only [collisionLoop]
    split_ifs with hmem
    · exact ih (counter + 1) _ ⟨b ++ "_" ++ toString counter, rfl⟩
    · exact h

lemma generateFilename_ext_form (existing : List String) (prompt format : String)
    (idx : Nat) :
    ∃ s, generateFilename existing prompt format idx = s ++ "." ++ jsExtension format := by
  unfold generateFilename
  exact collisionLoop_ext_form existing _ (jsExtension format) (existing.length + 1) _ _
    ⟨_, rfl⟩

lemma pathJoin_png (a s : String) :
    pathJoin a (s ++ "." ++ "png") = (a ++ "/" ++ s) ++ ".png" := by
  unfold pathJoin
  rw [String.append_assoc (a ++ "/") s, String.append_assoc s "." "png",
    show ("." : String) ++ "png" = ".png" from rfl,
    ← String.append_assoc (a ++ "/") s ".png"]

lemma storyLoop_files_png (provider : Nat → ProviderOutcome) (basePrompt type : String) :
    ∀ (idxs : List Nat) (st : GenState),
      (∀ f ∈ st.generatedFiles, ∃ s, f = s ++ ".png") →
      ∀ f ∈ (storyLoop provider basePrompt type idxs st).1.generatedFiles,
        ∃ s, f = s ++ ".png" := by
  intro idxs
  induction idxs with
  | nil =>
    intro st h f hf
    exact h f hf
  | cons i rest ih =>
    intro st h f hf
    simp only [storyLoop] at hf
    cases hp : provider st.calls with
    | ok resp =>
      rw [hp] at hf
      dsimp only at hf
      cases hparse : parseImageFromResponse resp with
      | some img =>
        rw [hparse] at hf
        refine ih _ ?_ f hf
        intro g hg
        rw [savedState_generatedFiles] at hg
        rcases List.mem_append.mp hg with hg | hg
        · exact h g hg
        · have hg' : g = pathJoin outputDirPath
              (generateFilename (bumpCalls st).existingNames
                (type ++ "step" ++ toString (i + 1) ++ basePrompt) "png" 0) := by
            simpa using hg
          obtain ⟨s, hs⟩ := generateFilename_ext_form (bumpCalls st).existingNames
            (type ++ "step" ++ toString (i + 1) ++ basePrompt) "png" 0
          refine ⟨outputDirPath ++ "/" ++ s, ?_⟩
          rw [hg', hs, show jsExtension "png" = "png" from rfl, pathJoin_png]
      | none =>
        rw [hparse] at hf
        dsimp only at hf
        exact ih (bumpCalls st) h f hf
    | failure e =>
      rw [hp] at hf
      dsimp only at hf
      split_ifs at hf with hcond
      · exact h f hf
      · exact ih (recordError (bumpCalls st) (handleApiError e)) h f hf

lemma storyRun_state (provider : Nat → ProviderOutcome) (names : List String)
    (request : ImageGenerationRequest) (args : Option StorySequenceArgs) :
    (generateStorySequenceRun provider names request args).1
      = (storyLoop provider request.prompt
          (jsStrDefault (args.bind (fun a => a.type)) "story")
          (List.range (storySteps request)) { existingNames := names }).1 := by
  unfold generateStorySequenceRun
  dsimp only
  rcases storyLoop provider request.prompt
    (jsStrDefault (args.bind (fun a => a.type)) "story")
    (List.range (storySteps request)) { existingNames := names } with ⟨st, abort⟩
  cases abort with
  | some m => rfl
  | none =>
    dsimp only
    split <;> rfl

/-- Claim C10: story sequences always save with the png file format: the
request fileFormat field has no effect on the story run at all, and every
generated file path ends in ".png". -/
theorem storySequence_png_spec :
    ∀ (provider : Nat → ProviderOutcome) (names : List String)
      (request : ImageGenerationRequest) (args : Option StorySequenceArgs)
      (f1 f2 : Option String),
      generateStorySequenceRun provider names { request with fileFormat := f1 } args
        = generateStorySequenceRun provider names { request with fileFormat := f2 } args
    ∧ (∀ file ∈ (generateStorySequenceRun provider names request args).1.generatedFiles,
        ∃ s, file = s ++ ".png") := by
  intro provider names request args f1 f2
  constructor
  · rfl
  · intro file hfile
    rw [storyRun_state provider names request args] at hfile
    exact storyLoop_files_png provider request.prompt
      (jsStrDefault (args.bind (fun a => a.type)) "story")
      (List.range (storySteps request)) { existingNames := names }
      (by intro g hg; exact absurd hg (List.not_mem_nil g)) file hfile

set_option maxRecDepth 10000 in
/-- Witness for C10: a concrete one-step story run is unchanged when the
request asks for jpeg, and its single generated file ends in ".png". -/
theorem storySequence_png_spec_witness :
    generateStorySequenceRun (fun _ => .ok goodImageResponse) []
        { prompt := "a fox", outputCount := some 1, fileFormat := some "jpeg" } none
      = generateStorySequenceRun (fun _ => .ok goodImageResponse) []
        { prompt := "a fox", outputCount := some 1, fileFormat := some "png" } none
  ∧ ∃ s, pathJoin outputDirPath "storystep1a_fox.png" = s ++ ".png" := by
  constructor
  · exact (storySequence_png_spec (fun _ => .ok goodImageResponse) []
      { prompt := "a fox", outputCount := some 1 } none (some "jpeg") (some "png")).1
  · refine (storySequence_png_spec (fun _ => .ok goodImageResponse) []
      { prompt := "a fox", outputCount := some 1 } none none none).2
      (pathJoin outputDirPath "storystep1a_fox.png") ?_
    show pathJoin outputDirPath "storystep1a_fox.png"
        ∈ ([pathJoin outputDirPath "storystep1a_fox.png"] : List String)
    exact List.mem_singleton.mpr rfl
